import Mathlib

/-!
Verification of the mamba-mcp protocol session and call-logging core.

The definitions below are a shallow embedding of the repository's Python
sources, translated function by function:

* `src/packages/mamba-mcp-client/src/mamba_mcp_client/logging.py`
  (`MessageDirection`, `MCPLogEntry`, `MCPLogger` with `log_request`,
  `log_response`, `log_notification`, `get_entries`, `clear`, `export_json`);
* `src/src/mamba_mcp_client/client.py`
  (`ServerCapabilities`, `ServerInfo`, `ToolCallResult`, `MCPTestClient`
  with `connect`, `_ensure_connected` and the capability-scoped operations).

Python values that can appear in payloads are embedded as a small JSON-like
inductive `Json`.  Machine-level effects are made explicit:

* the wall clock (`datetime.now()`) becomes an explicit `Nat` argument
  (milliseconds) at every call site that reads it — `log_response` reads the
  clock twice (once for the duration, once for the entry timestamp), so it
  takes two such arguments;
* exceptions become `Except`; the outcome of each underlying FastMCP
  protocol call (a collaborator outside this repository) is a parameter of
  the operation that performs it;
* Python attribute/shape probing (`hasattr`, `isinstance`) on a result value
  is embedded by the `PyResult` record, whose fields record exactly the
  facts those probes read.
-/

namespace MambaMcp

/-- JSON-like values: the embedding of arbitrary Python/JSON payloads
handled by the logger (`data: dict[str, Any]` entries, wire results). -/
inductive Json where
  | null : Json
  | bool (b : Bool) : Json
  | num (n : Int) : Json
  | str (s : String) : Json
  | arr (elems : List Json) : Json
  | obj (fields : List (String × Json)) : Json

/-- The elements of a JSON array (used to inspect an exported log). -/
def Json.arrElems : Json → List Json
  | .arr elems => elems
  | _ => []

/-- The keys of a JSON object, in order (used to inspect an exported log). -/
def Json.objKeys : Json → List String
  | .obj fields => fields.map Prod.fst
  | _ => []

/-- Embedding of `MessageDirection` from `logging.py`: direction of an MCP message. -/
inductive MessageDirection where
  | request : MessageDirection
  | response : MessageDirection
  | notification : MessageDirection
  deriving DecidableEq

/-- The `value` of the Python `str`-enum `MessageDirection`. -/
def MessageDirection.value : MessageDirection → String
  | .request => "request"
  | .response => "response"
  | .notification => "notification"

/-- Embedding of `MCPLogEntry` from `logging.py`: a single MCP protocol log entry.
Timestamps are wall-clock readings in milliseconds; `duration_ms` is the
difference of two such readings, hence an `Int`. -/
structure MCPLogEntry where
  timestamp : Nat
  direction : MessageDirection
  method : String
  data : List (String × Json)
  duration_ms : Option Int
  error : Option String

/-- Embedding of `MCPLogEntry.to_dict` from `logging.py`: conversion to a JSON object
for serialization.  `datetime.isoformat` (standard library) is embedded as
an injective rendering of the millisecond timestamp. -/
def isoformat (t : Nat) : String :=
  toString t

/-- Embedding of `MCPLogEntry.to_dict` from `logging.py`, field for field. -/
def MCPLogEntry.to_dict (e : MCPLogEntry) : List (String × Json) :=
  [ ("timestamp", Json.str (isoformat e.timestamp)),
    ("direction", Json.str e.direction.value),
    ("method", Json.str e.method),
    ("data", Json.obj e.data),
    ("duration_ms", match e.duration_ms with
                    | some d => Json.num d
                    | none => Json.null),
    ("error", match e.error with
              | some s => Json.str s
              | none => Json.null) ]

/-- The embedding of a Python value passed to `log_response` as `result`.
`log_response` inspects the value with `hasattr(result, "model_dump")`,
`hasattr(result, "__dict__")`, `isinstance(result, dict)` and `str(result)`;
the fields below record exactly what those probes see. -/
structure PyResult where
  /-- Value `some d` iff the object has a `model_dump` method, with `d` its output. -/
  model_dump : Option (List (String × Json))
  /-- whether `hasattr(result, "__dict__")` holds. -/
  hasDict : Bool
  /-- Value `some d` iff the object satisfies `isinstance(result, dict)`, with `d`
  its key-value pairs. -/
  asDict : Option (List (String × Json))
  /-- the rendering `str(result)`. -/
  strRepr : String
  /-- the value itself as a JSON payload (used when it is stored raw). -/
  rawJson : Json

/-- A plain Python `dict` literal such as the payloads the client passes to
`log_response`: no `model_dump`, no instance `__dict__`, is a `dict`. -/
def pyDict (d : List (String × Json)) : PyResult :=
  { model_dump := none, hasDict := false, asDict := some d,
    strRepr := "", rawJson := Json.null }

/-- The result-normalization chain of `MCPLogger.log_response`
(logging.py lines 115-123), branch for branch:
`model_dump` first, then `__dict__` (stringified), then `dict` (as-is),
else the raw value wrapped, without string coercion. -/
def normalize_result (r : PyResult) : List (String × Json) :=
  match r.model_dump with
  | some d => d
  | none =>
    if r.hasDict then [("result", Json.str r.strRepr)]
    else
      match r.asDict with
      | some d => d
      | none => [("result", r.rawJson)]

/-- Embedding of `MCPLogger` from `logging.py`.  The fields that only configure the
best-effort debug trace (console sink, handlers) carry no protocol state;
the entry sequence is the observable log. -/
structure MCPLogger where
  name : String
  level : String
  log_file : Option String
  log_requests : Bool
  log_responses : Bool
  entries : List MCPLogEntry

/-- An `MCPLogger()` with the Python dataclass defaults and no entries. -/
def emptyLogger : MCPLogger :=
  { name := "mamba-mcp", level := "INFO", log_file := none,
    log_requests := true, log_responses := true, entries := [] }

/-- Embedding of `MCPLogger.log_request` from `logging.py`: appends a `request` entry
and returns it.  `now` is the `datetime.now()` reading. -/
def MCPLogger.log_request (l : MCPLogger) (now : Nat) (method : String)
    (params : Option (List (String × Json))) : MCPLogEntry × MCPLogger :=
  let entry : MCPLogEntry :=
    { timestamp := now, direction := .request, method := method,
      data := params.getD [], duration_ms := none, error := none }
  (entry, { l with entries := l.entries ++ [entry] })

/-- Embedding of `MCPLogger.log_response` from `logging.py`: appends a `response` entry.
The source reads the clock twice: `nowDur` is the `datetime.now()` used for
the duration, `nowTs` the one stored as the entry timestamp.  If a request
entry is given, `duration_ms = nowDur - request_entry.timestamp`; the
source derives both readings from the wall clock, so the difference is an
unconstrained `Int`. -/
def MCPLogger.log_response (l : MCPLogger) (nowDur nowTs : Nat)
    (method : String) (result : PyResult)
    (request_entry : Option MCPLogEntry)
    (error : Option String) : MCPLogEntry × MCPLogger :=
  let duration_ms : Option Int :=
    match request_entry with
    | some r => some ((nowDur : Int) - (r.timestamp : Int))
    | none => none
  let entry : MCPLogEntry :=
    { timestamp := nowTs, direction := .response, method := method,
      data := normalize_result result, duration_ms := duration_ms,
      error := error }
  (entry, { l with entries := l.entries ++ [entry] })

/-- Embedding of `MCPLogger.log_notification` from `logging.py`. -/
def MCPLogger.log_notification (l : MCPLogger) (now : Nat) (method : String)
    (params : Option (List (String × Json))) : MCPLogEntry × MCPLogger :=
  let entry : MCPLogEntry :=
    { timestamp := now, direction := .notification, method := method,
      data := params.getD [], duration_ms := none, error := none }
  (entry, { l with entries := l.entries ++ [entry] })

/-- The Python slice `xs[k:]` for an integer `k` (negative `k` counts from
the end, out-of-range indices clamp). -/
def pyTailSlice (xs : List α) (k : Int) : List α :=
  if 0 ≤ k then xs.drop k.toNat
  else xs.drop (xs.length - (-k).toNat)

/-- Embedding of `MCPLogger.get_entries` from `logging.py`, truthiness included: the
enum values are non-empty strings, so a given direction always filters; a
given method filters only when non-empty (`if method:`); a given limit
slices only when non-zero (`if limit:`), via `result[-limit:]`. -/
def MCPLogger.get_entries (l : MCPLogger)
    (direction : Option MessageDirection) (method : Option String)
    (limit : Option Int) : List MCPLogEntry :=
  let r := l.entries
  let r := match direction with
    | some d => r.filter (fun e => e.direction == d)
    | none => r
  let r := match method with
    | some m => if m = "" then r else r.filter (fun e => e.method == m)
    | none => r
  match limit with
  | some n => if n = 0 then r else pyTailSlice r (-n)
  | none => r

/-- Embedding of `MCPLogger.clear` from `logging.py`. -/
def MCPLogger.clear (l : MCPLogger) : MCPLogger :=
  { l with entries := [] }

/-- Embedding of `MCPLogger.export_json` from `logging.py`: the JSON value serialized by
`json.dumps([e.to_dict() for e in self.entries], indent=2)`.  The standard
library pair `json.dumps` / `json.loads` is embedded as the identity on
this JSON value. -/
def MCPLogger.export_json (l : MCPLogger) : Json :=
  Json.arr (l.entries.map (fun e => Json.obj e.to_dict))

/-- The `capabilities` object of an `mcp.types.InitializeResult` as read by
`ServerCapabilities.from_init_result` in `client.py`: each boolean records
whether the corresponding field `is not None`. -/
structure WireCapabilities where
  tools : Bool
  resources : Bool
  prompts : Bool
  logging : Bool
  experimental : Option (List (String × Json))

/-- An `mcp.types.InitializeResult` as read by `client.py`: server identity
plus optional capabilities, and its `model_dump` payload used when the
initialization result is logged. -/
structure WireInitializeResult where
  serverName : String
  serverVersion : String
  protocolVersion : String
  instructions : Option String
  capabilities : Option WireCapabilities
  dump : List (String × Json)

/-- Embedding of `ServerCapabilities` from `client.py`. -/
structure ServerCapabilities where
  tools : Bool
  resources : Bool
  prompts : Bool
  logging : Bool
  experimental : List (String × Json)

/-- Embedding of `ServerCapabilities.from_init_result` from `client.py`. -/
def ServerCapabilities.from_init_result
    (r : WireInitializeResult) : ServerCapabilities :=
  match r.capabilities with
  | some caps =>
    { tools := caps.tools, resources := caps.resources,
      prompts := caps.prompts, logging := caps.logging,
      experimental := caps.experimental.getD [] }
  | none =>
    { tools := false, resources := false, prompts := false,
      logging := false, experimental := [] }

/-- Embedding of `ServerInfo` from `client.py`. -/
structure ServerInfo where
  name : String
  version : String
  protocol_version : String
  instructions : Option String
  capabilities : Option ServerCapabilities

/-- Embedding of `ServerInfo.from_init_result` from `client.py`. -/
def ServerInfo.from_init_result (r : WireInitializeResult) : ServerInfo :=
  { name := r.serverName, version := r.serverVersion,
    protocol_version := r.protocolVersion,
    instructions := r.instructions,
    capabilities := some (ServerCapabilities.from_init_result r) }

/-- The initialization result as the `PyResult` handed to `log_response`
in `connect` — a pydantic object, so `model_dump` is its dump. -/
def WireInitializeResult.toLoggedResult
    (r : WireInitializeResult) : PyResult :=
  { model_dump := some r.dump, hasDict := true, asDict := none,
    strRepr := "", rawJson := Json.null }

/-- A `fastmcp` `CallToolResult` as read by `MCPTestClient.call_tool`:
`content` (falsy when `none` or empty), the two possible spellings of the
error flag (`none` = attribute absent), and the `model_dump` payload used
when the result is logged. -/
structure WireToolResult where
  content : Option (List Json)
  is_error : Option Bool
  isError : Option Bool
  dump : List (String × Json)

/-- The wire tool result as the `PyResult` handed to `log_response` —
a pydantic object, so `model_dump` is its dump. -/
def WireToolResult.toLoggedResult (r : WireToolResult) : PyResult :=
  { model_dump := some r.dump, hasDict := true, asDict := none,
    strRepr := "", rawJson := Json.null }

/-- The error-flag normalization line of `MCPTestClient.call_tool`:
`getattr(result, "is_error", getattr(result, "isError", False)) or False`.
The attribute `is_error` is read first; `isError` is only the fallback
default used when `is_error` is absent. -/
def WireToolResult.errorFlag (r : WireToolResult) : Bool :=
  match r.is_error with
  | some b => b
  | none =>
    match r.isError with
    | some b => b
    | none => false

/-- Embedding of `ToolCallResult` from `client.py`. -/
structure ToolCallResult where
  tool_name : String
  arguments : List (String × Json)
  content : List Json
  is_error : Bool
  raw_result : Option WireToolResult

/-- The typed failures of a capability-scoped operation: the not-connected
`RuntimeError` raised by `_ensure_connected`, or a re-raised failure of the
underlying protocol call carrying its message `str(e)`. -/
inductive MCPError where
  | notConnected : MCPError
  | underlying (msg : String) : MCPError

/-- The mutable state of an `MCPTestClient`: its logger and the three
fields `_client` (presence of the live FastMCP handle), `_server_info`
and `_connected`. -/
structure ClientState where
  logger : MCPLogger
  client : Option Unit
  server_info : Option ServerInfo
  connected : Bool

namespace MCPTestClient

/-- The guard of `MCPTestClient._ensure_connected`:
`if not self._client or not self._connected`. -/
def notReady (st : ClientState) : Bool :=
  st.client.isNone || !st.connected

/-- Embedding of `MCPTestClient.connect` from `client.py`, as a scoped-acquisition
function: enter the FastMCP client context (set `_client`, `_connected`,
parse and cache `ServerInfo` and log a synthetic `initialize` response when
an initialization result is available), run the caller's block `body`, and
on every exit of the block — normal or failing — reset `_connected`,
`_client` and `_server_info` in the `finally` clause.  `init` is the
`client.initialize_result` the collaborator library exposes; `tDur`/`tTs`
are the clock readings of the `log_response` call. -/
def connect (st : ClientState) (tDur tTs : Nat)
    (init : Option WireInitializeResult)
    (body : ClientState → Except String Unit × ClientState) :
    Except String Unit × ClientState :=
  let st1 : ClientState := { st with client := some (), connected := true }
  let st2 : ClientState :=
    match init with
    | some r =>
      { st1 with
        server_info := some (ServerInfo.from_init_result r),
        logger := (st1.logger.log_response tDur tTs "initialize"
                    r.toLoggedResult none none).2 }
    | none => st1
  let pr := body st2
  (pr.1, { pr.2 with connected := false, client := none,
                     server_info := none })

/-- Embedding of `MCPTestClient.list_resources`: guard, log request, dispatch, log the
response (`resources` wrapped in a dict) or the error, re-raise on failure.
`call` is the outcome of `client.list_resources()`. -/
def list_resources (st : ClientState) (tReq tDur tTs : Nat)
    (call : Except String Json) : Except MCPError Json × ClientState :=
  if notReady st then (.error .notConnected, st)
  else
    match st.logger.log_request tReq "resources/list" none with
    | (reqEntry, log1) =>
      match call with
      | .ok resources =>
        (.ok resources,
         { st with logger := (log1.log_response tDur tTs "resources/list"
             (pyDict [("resources", resources)]) (some reqEntry) none).2 })
      | .error e =>
        (.error (.underlying e),
         { st with logger := (log1.log_response tDur tTs "resources/list"
             (pyDict []) (some reqEntry) (some e)).2 })

/-- Embedding of `MCPTestClient.read_resource`.  `call` is the outcome of
`client.read_resource_mcp(AnyUrl(uri))`, a pydantic result object. -/
def read_resource (st : ClientState) (tReq tDur tTs : Nat) (uri : String)
    (call : Except String PyResult) :
    Except MCPError PyResult × ClientState :=
  if notReady st then (.error .notConnected, st)
  else
    match st.logger.log_request tReq "resources/read"
        (some [("uri", Json.str uri)]) with
    | (reqEntry, log1) =>
      match call with
      | .ok result =>
        (.ok result,
         { st with logger := (log1.log_response tDur tTs "resources/read"
             result (some reqEntry) none).2 })
      | .error e =>
        (.error (.underlying e),
         { st with logger := (log1.log_response tDur tTs "resources/read"
             (pyDict []) (some reqEntry) (some e)).2 })

/-- Embedding of `MCPTestClient.subscribe_resource`.  `call` is the outcome of
`client.subscribe_resource(AnyUrl(uri))`. -/
def subscribe_resource (st : ClientState) (tReq tDur tTs : Nat)
    (uri : String) (call : Except String Unit) :
    Except MCPError Unit × ClientState :=
  if notReady st then (.error .notConnected, st)
  else
    match st.logger.log_request tReq "resources/subscribe"
        (some [("uri", Json.str uri)]) with
    | (reqEntry, log1) =>
      match call with
      | .ok _ =>
        (.ok (),
         { st with logger := (log1.log_response tDur tTs
             "resources/subscribe" (pyDict [("subscribed", Json.bool true)])
             (some reqEntry) none).2 })
      | .error e =>
        (.error (.underlying e),
         { st with logger := (log1.log_response tDur tTs
             "resources/subscribe" (pyDict []) (some reqEntry) (some e)).2 })

/-- Embedding of `MCPTestClient.unsubscribe_resource`.  `call` is the outcome of
`client.unsubscribe_resource(AnyUrl(uri))`. -/
def unsubscribe_resource (st : ClientState) (tReq tDur tTs : Nat)
    (uri : String) (call : Except String Unit) :
    Except MCPError Unit × ClientState :=
  if notReady st then (.error .notConnected, st)
  else
    match st.logger.log_request tReq "resources/unsubscribe"
        (some [("uri", Json.str uri)]) with
    | (reqEntry, log1) =>
      match call with
      | .ok _ =>
        (.ok (),
         { st with logger := (log1.log_response tDur tTs
             "resources/unsubscribe"
             (pyDict [("unsubscribed", Json.bool true)])
             (some reqEntry) none).2 })
      | .error e =>
        (.error (.underlying e),
         { st with logger := (log1.log_response tDur tTs
             "resources/unsubscribe" (pyDict []) (some reqEntry)
             (some e)).2 })

/-- Embedding of `MCPTestClient.list_prompts`.  `call` is the outcome of
`client.list_prompts()`. -/
def list_prompts (st : ClientState) (tReq tDur tTs : Nat)
    (call : Except String Json) : Except MCPError Json × ClientState :=
  if notReady st then (.error .notConnected, st)
  else
    match st.logger.log_request tReq "prompts/list" none with
    | (reqEntry, log1) =>
      match call with
      | .ok prompts =>
        (.ok prompts,
         { st with logger := (log1.log_response tDur tTs "prompts/list"
             (pyDict [("prompts", prompts)]) (some reqEntry) none).2 })
      | .error e =>
        (.error (.underlying e),
         { st with logger := (log1.log_response tDur tTs "prompts/list"
             (pyDict []) (some reqEntry) (some e)).2 })

/-- Embedding of `MCPTestClient.get_prompt`.  `call` is the outcome of
`client.get_prompt_mcp(name, arguments)`, a pydantic result object. -/
def get_prompt (st : ClientState) (tReq tDur tTs : Nat) (name : String)
    (arguments : Option (List (String × Json)))
    (call : Except String PyResult) :
    Except MCPError PyResult × ClientState :=
  if notReady st then (.error .notConnected, st)
  else
    match st.logger.log_request tReq "prompts/get"
        (some [("name", Json.str name),
               ("arguments", match arguments with
                             | some a => Json.obj a
                             | none => Json.null)]) with
    | (reqEntry, log1) =>
      match call with
      | .ok result =>
        (.ok result,
         { st with logger := (log1.log_response tDur tTs "prompts/get"
             result (some reqEntry) none).2 })
      | .error e =>
        (.error (.underlying e),
         { st with logger := (log1.log_response tDur tTs "prompts/get"
             (pyDict []) (some reqEntry) (some e)).2 })

/-- Embedding of `MCPTestClient.list_tools`.  `call` is the outcome of
`client.list_tools()`. -/
def list_tools (st : ClientState) (tReq tDur tTs : Nat)
    (call : Except String Json) : Except MCPError Json × ClientState :=
  if notReady st then (.error .notConnected, st)
  else
    match st.logger.log_request tReq "tools/list" none with
    | (reqEntry, log1) =>
      match call with
      | .ok tools =>
        (.ok tools,
         { st with logger := (log1.log_response tDur tTs "tools/list"
             (pyDict [("tools", tools)]) (some reqEntry) none).2 })
      | .error e =>
        (.error (.underlying e),
         { st with logger := (log1.log_response tDur tTs "tools/list"
             (pyDict []) (some reqEntry) (some e)).2 })

/-- Embedding of `MCPTestClient.call_tool`: guard, default the arguments
(`args = arguments or {}`), log the request, dispatch, log the result and
build the normalized `ToolCallResult` — or log the error and re-raise.
`call` is the outcome of `client.call_tool(name, args)`. -/
def call_tool (st : ClientState) (tReq tDur tTs : Nat) (name : String)
    (arguments : Option (List (String × Json)))
    (call : Except String WireToolResult) :
    Except MCPError ToolCallResult × ClientState :=
  if notReady st then (.error .notConnected, st)
  else
    let args := arguments.getD []
    match st.logger.log_request tReq "tools/call"
        (some [("name", Json.str name), ("arguments", Json.obj args)]) with
    | (reqEntry, log1) =>
      match call with
      | .ok result =>
        (.ok { tool_name := name, arguments := args,
               content := result.content.getD [],
               is_error := result.errorFlag,
               raw_result := some result },
         { st with logger := (log1.log_response tDur tTs "tools/call"
             result.toLoggedResult (some reqEntry) none).2 })
      | .error e =>
        (.error (.underlying e),
         { st with logger := (log1.log_response tDur tTs "tools/call"
             (pyDict []) (some reqEntry) (some e)).2 })

/-- Embedding of `MCPTestClient.ping`: like the other operations but a failing
underlying call is converted into the return value `false` after being
logged, instead of being re-raised. -/
def ping (st : ClientState) (tReq tDur tTs : Nat)
    (call : Except String Unit) : Except MCPError Bool × ClientState :=
  if notReady st then (.error .notConnected, st)
  else
    match st.logger.log_request tReq "ping" none with
    | (reqEntry, log1) =>
      match call with
      | .ok _ =>
        (.ok true,
         { st with logger := (log1.log_response tDur tTs "ping"
             (pyDict [("success", Json.bool true)])
             (some reqEntry) none).2 })
      | .error e =>
        (.ok false,
         { st with logger := (log1.log_response tDur tTs "ping"
             (pyDict [("success", Json.bool false)])
             (some reqEntry) (some e)).2 })

/-- Embedding of `MCPTestClient.list_roots`: the source probes
`hasattr(client, "list_roots")` (`hasRoots` here); when absent it logs an
error entry and degrades to an empty list, otherwise it dispatches and
re-raises failures after logging them. -/
def list_roots (st : ClientState) (tReq tDur tTs : Nat) (hasRoots : Bool)
    (call : Except String Json) : Except MCPError Json × ClientState :=
  if notReady st then (.error .notConnected, st)
  else
    match st.logger.log_request tReq "roots/list" none with
    | (reqEntry, log1) =>
      if hasRoots then
        match call with
        | .ok roots =>
          (.ok roots,
           { st with logger := (log1.log_response tDur tTs "roots/list"
               (pyDict [("roots", roots)]) (some reqEntry) none).2 })
        | .error e =>
          (.error (.underlying e),
           { st with logger := (log1.log_response tDur tTs "roots/list"
               (pyDict []) (some reqEntry) (some e)).2 })
      else
        (.ok (Json.arr []),
         { st with logger := (log1.log_response tDur tTs "roots/list"
             (pyDict []) (some reqEntry)
             (some "Roots not supported")).2 })

end MCPTestClient

/-- Splitting a character list on every occurrence of `c` (the character
level meaning of Python `str.split(c)`). -/
def splitOnChar (c : Char) : List Char → List (List Char)
  | [] => [[]]
  | x :: xs =>
    let rest := splitOnChar c xs
    if x = c then [] :: rest
    else
      match rest with
      | [] => [[x]]
      | y :: ys => (x :: y) :: ys

/-- Joining strings with a separator (the meaning of `sep.join(parts)`). -/
def joinWith (sep : String) : List String → String
  | [] => ""
  | [s] => s
  | s :: rest => s ++ sep ++ joinWith sep rest

/-- Modelled from the spec: the token-folding rule of the Transport
Resolver.  The implementation (`MCPTestClient._append_query_params` and the
`extra_args` configuration field) is exercised by the repository's tests
but is not among the provided sources, so it is modelled from the spec's
words: a token containing `=` is split once on its first `=` into a
key/value pair; a bare token `t` becomes the pair `(t, "true")`. -/
def splitTokenOnEq (t : String) : String × String :=
  match (splitOnChar '=' t.toList).map String.mk with
  | [] => (t, "true")
  | [k] => (k, "true")
  | k :: rest => (k, joinWith "=" rest)

/-- Modelled from the spec: an Http/SSE URL seen structurally, as the part
before the query string plus the ordered key/value query parameters. -/
structure UrlModel where
  base : String
  query : List (String × String)

/-- Modelled from the spec: folding `extraArgs` into a structurally-viewed
URL appends the folded pairs to the query parameters already present. -/
def UrlModel.appendQueryParams (u : UrlModel)
    (extraArgs : List String) : UrlModel :=
  { u with query := u.query ++ extraArgs.map splitTokenOnEq }

/-- Modelled from the spec: `MCPTestClient._append_query_params` at the
string level, as the repository's tests call it — an empty `extraArgs`
returns the URL unchanged; otherwise the folded pairs are appended to the
query string, with `&` when the URL already has one and `?` otherwise. -/
def appendQueryParams (url : String) (extraArgs : List String) : String :=
  if extraArgs.isEmpty then url
  else
    let qs := joinWith "&"
      ((extraArgs.map splitTokenOnEq).map (fun p => p.1 ++ "=" ++ p.2))
    if url.toList.contains '?' then url ++ "&" ++ qs else url ++ "?" ++ qs

/-! Spec-side definitions: the statements below compare the embedded code
against these formulations, which are written from the spec's wording, not
from the implementation. -/

/-- Spec side of `get_entries` filtering: the entries whose direction
equals the given direction and whose method equals the given method, each
filter optional and AND-combined, in one pass over the log. -/
def filteredEntries (l : MCPLogger) (dir : Option MessageDirection)
    (m : Option String) : List MCPLogEntry :=
  l.entries.filter (fun e =>
    (match dir with
     | some d => e.direction == d
     | none => true)
    &&
    (match m with
     | some s => e.method == s
     | none => true))

/-- What a consumer of the exported log reads back from one element:
its `method` and `direction`. -/
structure DecodedEntry where
  method : String
  direction : MessageDirection
  deriving DecidableEq

/-- Parsing a direction string of the exported log. -/
def decodeDirection (s : String) : Option MessageDirection :=
  if s = "request" then some .request
  else if s = "response" then some .response
  else if s = "notification" then some .notification
  else none

/-- Key lookup in a JSON object's field list. -/
def lookupField (fields : List (String × Json)) (k : String) : Option Json :=
  match fields.find? (fun p => decide (p.1 = k)) with
  | some p => some p.2
  | none => none

/-- Parsing one element of the exported log back into the facts a consumer
needs: its `method` and `direction` fields. -/
def decodeEntry : Json → Option DecodedEntry
  | .obj fields =>
    match lookupField fields "method", lookupField fields "direction" with
    | some (.str m), some (.str d) =>
      match decodeDirection d with
      | some dir => some { method := m, direction := dir }
      | none => none
    | _, _ => none
  | _ => none

/-- Parsing every element of a list, failing when any element fails. -/
def decodeAll (f : α → Option β) : List α → Option (List β)
  | [] => some []
  | x :: xs =>
    match f x, decodeAll f xs with
    | some y, some ys => some (y :: ys)
    | _, _ => none

/-- Parsing the whole exported log back. -/
def decodeLog : Json → Option (List DecodedEntry)
  | .arr elems => decodeAll decodeEntry elems
  | _ => none

/-! Concrete fixtures used by closed witness and counterexample
statements. -/

/-- A client that has not connected: the state built by
`MCPTestClient.__init__`. -/
def disconnectedState : ClientState :=
  { logger := emptyLogger, client := none, server_info := none,
    connected := false }

/-- A client inside a `connect` block: live handle, connected flag set. -/
def connectedState : ClientState :=
  { logger := emptyLogger, client := some (), server_info := none,
    connected := true }

/-- A logger holding one concrete request entry (method `tools/list`). -/
def sampleLogger : MCPLogger :=
  ((emptyLogger.log_request 0 "tools/list" none)).2

/-- The Python value `42` as `log_response` sees it: no `model_dump`, no
`__dict__`, not a `dict`; `str(42)` is `"42"`. -/
def intResult : PyResult :=
  { model_dump := none, hasDict := false, asDict := none,
    strRepr := "42", rawJson := Json.num 42 }

/-- A wire tool result exposing both flag spellings with different values:
`is_error=False` and `isError=True`. -/
def conflictingToolResult : WireToolResult :=
  { content := none, is_error := some false, isError := some true,
    dump := [] }

/-!  Theorems. -/

/-- Claim C1: for every Http/SSE transport configuration and every
`extraArgs` sequence, resolving the transport folds `extraArgs` into the
URL query string — a token containing `=` is split once on its first `=`
and appended as a key/value query parameter, query parameters already
present in the URL are preserved, a bare token `t` is appended as
`t=true`, and an empty `extraArgs` sequence leaves the URL unchanged.
(The fold is modelled from the spec, the implementation being absent from
the provided sources; the concrete equations are the spec's own test
vectors.) -/
theorem extra_args_folded_into_query_string :
    (∀ (u : UrlModel) (extraArgs : List String),
        (u.appendQueryParams extraArgs).base = u.base
        ∧ (u.appendQueryParams extraArgs).query
            = u.query ++ extraArgs.map splitTokenOnEq
        ∧ (u.appendQueryParams extraArgs).query.take u.query.length
            = u.query)
    ∧ (∀ u : UrlModel, u.appendQueryParams [] = u)
    ∧ (∀ url : String, appendQueryParams url [] = url)
    ∧ splitTokenOnEq "env=prod" = ("env", "prod")
    ∧ splitTokenOnEq "a=b=c" = ("a", "b=c")
    ∧ splitTokenOnEq "debug" = ("debug", "true")
    ∧ appendQueryParams "http://h/sse" ["env=prod", "debug=true"]
        = "http://h/sse?env=prod&debug=true"
    ∧ appendQueryParams "http://h/sse?token=abc" ["env=prod"]
        = "http://h/sse?token=abc&env=prod"
    ∧ appendQueryParams "http://h/sse" ["debug", "verbose"]
        = "http://h/sse?debug=true&verbose=true" := by
  refine ⟨?_, ?_, ?_, by decide, by decide, by decide,
          by decide, by decide, by decide⟩
  · intro u extraArgs
    refine ⟨rfl, rfl, ?_⟩
    simp [UrlModel.appendQueryParams, List.take_left]
  · intro u
    simp [UrlModel.appendQueryParams]
  · intro url
    simp [appendQueryParams]

/-- Claim C8: on every exit path of the `connect` scoped block — normal
completion of the body or a failure inside it — the session is left
`Disconnected` with its cached `ServerInfo` discarded: the final state has
`connected = false` and `server_info = none`, whatever the body did. -/
theorem connect_teardown_on_every_exit :
    ∀ (st : ClientState) (tDur tTs : Nat)
      (init : Option WireInitializeResult)
      (body : ClientState → Except String Unit × ClientState),
      (MCPTestClient.connect st tDur tTs init body).2.connected = false
      ∧ (MCPTestClient.connect st tDur tTs init body).2.server_info
          = none := by
  intro st tDur tTs init body
  cases init <;> exact ⟨rfl, rfl⟩

/-- Claim C10: a limit of `0` passed to `get_entries` is ignored (Python
`if limit:` treats `0` as not given), so the call returns every entry
matching the direction/method filters, exactly as a call without a limit
— not the empty sequence. -/
theorem zero_limit_ignored :
    ∀ (l : MCPLogger) (dir : Option MessageDirection) (m : Option String),
      l.get_entries dir m (some 0) = l.get_entries dir m none := by
  intro l dir m
  simp [MCPLogger.get_entries]

/-- Claim C2: every capability-scoped operation invoked while the session
is `Disconnected` fails with the not-connected error and leaves the whole
state — in particular the logger's entry sequence — unchanged: the guard
`_ensure_connected` raises before any log call. -/
theorem disconnected_operations_fail_without_logging
    (st : ClientState) (t1 t2 t3 : Nat) (uri name : String)
    (dargs : Option (List (String × Json)))
    (jc : Except String Json) (pc : Except String PyResult)
    (uc : Except String Unit) (tc : Except String WireToolResult)
    (hasRoots : Bool) (h : st.connected = false) :
    MCPTestClient.list_tools st t1 t2 t3 jc = (.error .notConnected, st)
    ∧ MCPTestClient.list_resources st t1 t2 t3 jc
        = (.error .notConnected, st)
    ∧ MCPTestClient.read_resource st t1 t2 t3 uri pc
        = (.error .notConnected, st)
    ∧ MCPTestClient.subscribe_resource st t1 t2 t3 uri uc
        = (.error .notConnected, st)
    ∧ MCPTestClient.unsubscribe_resource st t1 t2 t3 uri uc
        = (.error .notConnected, st)
    ∧ MCPTestClient.list_prompts st t1 t2 t3 jc
        = (.error .notConnected, st)
    ∧ MCPTestClient.get_prompt st t1 t2 t3 name dargs pc
        = (.error .notConnected, st)
    ∧ MCPTestClient.call_tool st t1 t2 t3 name dargs tc
        = (.error .notConnected, st)
    ∧ MCPTestClient.ping st t1 t2 t3 uc = (.error .notConnected, st)
    ∧ MCPTestClient.list_roots st t1 t2 t3 hasRoots jc
        = (.error .notConnected, st) := by
  have hnr : MCPTestClient.notReady st = true := by
    simp [MCPTestClient.notReady, h]
  refine ⟨?_, ?_, ?_, ?_, ?_, ?_, ?_, ?_, ?_, ?_⟩ <;>
    simp [MCPTestClient.list_tools, MCPTestClient.list_resources,
          MCPTestClient.read_resource, MCPTestClient.subscribe_resource,
          MCPTestClient.unsubscribe_resource, MCPTestClient.list_prompts,
          MCPTestClient.get_prompt, MCPTestClient.call_tool,
          MCPTestClient.ping, MCPTestClient.list_roots, hnr]

/-- Closed witness for claim C2 at a concrete disconnected client. -/
theorem disconnected_operations_fail_without_logging_witness :
    disconnectedState.connected = false
    ∧ MCPTestClient.list_tools disconnectedState 0 0 0 (.ok Json.null)
        = (.error .notConnected, disconnectedState)
    ∧ MCPTestClient.ping disconnectedState 0 0 0 (.ok ())
        = (.error .notConnected, disconnectedState) := by
  have h := disconnected_operations_fail_without_logging
    disconnectedState 0 0 0 "file:///tmp" "add" none (.ok Json.null)
    (.ok (pyDict [])) (.ok ()) (.ok conflictingToolResult) true rfl
  exact ⟨rfl, h.1, h.2.2.2.2.2.2.2.2.1⟩

/-- The request entry a connected operation appends before dispatching. -/
def requestEntryAt (t : Nat) (m : String)
    (d : List (String × Json)) : MCPLogEntry :=
  { timestamp := t, direction := .request, method := m, data := d,
    duration_ms := none, error := none }

/-- The response entry a connected operation appends when the underlying
call fails with message `msg` (the logged payload `{}` normalizes to the
empty mapping). -/
def failureResponseEntryAt (tReq tDur tTs : Nat) (m msg : String)
    (d : List (String × Json)) : MCPLogEntry :=
  { timestamp := tTs, direction := .response, method := m, data := d,
    duration_ms := some ((tDur : Int) - (tReq : Int)),
    error := some msg }

/-- Claim C3: every capability-scoped operation invoked while `Connected`
appends a request entry before dispatch, and when the underlying protocol
call fails it appends a response entry whose `error` field is the
failure's message and then re-raises the failure to the caller — except
`ping`, which appends the error-bearing response entry (payload
`success=False`) and returns `false` instead of raising. -/
theorem connected_failures_logged_then_reraised
    (st : ClientState) (t1 t2 t3 : Nat) (uri name msg : String)
    (dargs : Option (List (String × Json)))
    (hc : st.client = some ()) (hcon : st.connected = true) :
    MCPTestClient.list_tools st t1 t2 t3 (.error msg)
      = (.error (.underlying msg),
         { st with logger := { st.logger with entries :=
             st.logger.entries
             ++ [requestEntryAt t1 "tools/list" [],
                 failureResponseEntryAt t1 t2 t3 "tools/list" msg []] } })
    ∧ MCPTestClient.list_resources st t1 t2 t3 (.error msg)
      = (.error (.underlying msg),
         { st with logger := { st.logger with entries :=
             st.logger.entries
             ++ [requestEntryAt t1 "resources/list" [],
                 failureResponseEntryAt t1 t2 t3 "resources/list" msg
                   []] } })
    ∧ MCPTestClient.read_resource st t1 t2 t3 uri (.error msg)
      = (.error (.underlying msg),
         { st with logger := { st.logger with entries :=
             st.logger.entries
             ++ [requestEntryAt t1 "resources/read"
                   [("uri", Json.str uri)],
                 failureResponseEntryAt t1 t2 t3 "resources/read" msg
                   []] } })
    ∧ MCPTestClient.subscribe_resource st t1 t2 t3 uri (.error msg)
      = (.error (.underlying msg),
         { st with logger := { st.logger with entries :=
             st.logger.entries
             ++ [requestEntryAt t1 "resources/subscribe"
                   [("uri", Json.str uri)],
                 failureResponseEntryAt t1 t2 t3 "resources/subscribe" msg
                   []] } })
    ∧ MCPTestClient.unsubscribe_resource st t1 t2 t3 uri (.error msg)
      = (.error (.underlying msg),
         { st with logger := { st.logger with entries :=
             st.logger.entries
             ++ [requestEntryAt t1 "resources/unsubscribe"
                   [("uri", Json.str uri)],
                 failureResponseEntryAt t1 t2 t3 "resources/unsubscribe"
                   msg []] } })
    ∧ MCPTestClient.list_prompts st t1 t2 t3 (.error msg)
      = (.error (.underlying msg),
         { st with logger := { st.logger with entries :=
             st.logger.entries
             ++ [requestEntryAt t1 "prompts/list" [],
                 failureResponseEntryAt t1 t2 t3 "prompts/list" msg
                   []] } })
    ∧ MCPTestClient.get_prompt st t1 t2 t3 name dargs (.error msg)
      = (.error (.underlying msg),
         { st with logger := { st.logger with entries :=
             st.logger.entries
             ++ [requestEntryAt t1 "prompts/get"
                   [("name", Json.str name),
                    ("arguments", match dargs with
                                  | some a => Json.obj a
                                  | none => Json.null)],
                 failureResponseEntryAt t1 t2 t3 "prompts/get" msg
                   []] } })
    ∧ MCPTestClient.call_tool st t1 t2 t3 name dargs (.error msg)
      = (.error (.underlying msg),
         { st with logger := { st.logger with entries :=
             st.logger.entries
             ++ [requestEntryAt t1 "tools/call"
                   [("name", Json.str name),
                    ("arguments", Json.obj (dargs.getD []))],
                 failureResponseEntryAt t1 t2 t3 "tools/call" msg
                   []] } })
    ∧ MCPTestClient.ping st t1 t2 t3 (.error msg)
      = (.ok false,
         { st with logger := { st.logger with entries :=
             st.logger.entries
             ++ [requestEntryAt t1 "ping" [],
                 failureResponseEntryAt t1 t2 t3 "ping" msg
                   [("success", Json.bool false)]] } })
    ∧ MCPTestClient.list_roots st t1 t2 t3 true (.error msg)
      = (.error (.underlying msg),
         { st with logger := { st.logger with entries :=
             st.logger.entries
             ++ [requestEntryAt t1 "roots/list" [],
                 failureResponseEntryAt t1 t2 t3 "roots/list" msg
                   []] } }) := by
  have hnr : MCPTestClient.notReady st = false := by
    simp [MCPTestClient.notReady, hc, hcon]
  refine ⟨?_, ?_, ?_, ?_, ?_, ?_, ?_, ?_, ?_, ?_⟩ <;>
    simp [MCPTestClient.list_tools, MCPTestClient.list_resources,
          MCPTestClient.read_resource, MCPTestClient.subscribe_resource,
          MCPTestClient.unsubscribe_resource, MCPTestClient.list_prompts,
          MCPTestClient.get_prompt, MCPTestClient.call_tool,
          MCPTestClient.ping, MCPTestClient.list_roots, hnr,
          MCPLogger.log_request, MCPLogger.log_response,
          normalize_result, pyDict, requestEntryAt,
          failureResponseEntryAt]

/-- Closed witness for claim C3 at a concrete connected client. -/
theorem connected_failures_logged_then_reraised_witness :
    connectedState.client = some ()
    ∧ connectedState.connected = true
    ∧ MCPTestClient.ping connectedState 1 2 3 (.error "boom")
      = (.ok false,
         { connectedState with logger := { connectedState.logger with
             entries := connectedState.logger.entries
             ++ [requestEntryAt 1 "ping" [],
                 failureResponseEntryAt 1 2 3 "ping" "boom"
                   [("success", Json.bool false)]] } }) := by
  have h := connected_failures_logged_then_reraised
    connectedState 1 2 3 "file:///tmp" "add" "boom" none rfl rfl
  exact ⟨rfl, rfl, h.2.2.2.2.2.2.2.2.1⟩

/-- Counterexample to claim C4 as stated: the wire result
`conflictingToolResult` exposes `isError=true`, yet the completed
`call_tool` returns a `ToolCallResult` whose error flag is `false` —
the claimed disjunction (`is_error=true` or `isError=true` implies the
flag) fails, because the code reads `is_error` first and consults
`isError` only when `is_error` is absent. -/
theorem call_tool_error_flag_counterexample :
    conflictingToolResult.isError = some true
    ∧ (MCPTestClient.call_tool connectedState 0 0 0 "t" none
        (.ok conflictingToolResult)).1
      = .ok { tool_name := "t", arguments := [], content := [],
              is_error := false,
              raw_result := some conflictingToolResult } := by
  exact ⟨rfl, rfl⟩

/-- Claim C4 as amended: for every completed `callTool` invocation, the
returned `ToolCallResult`'s error flag is `true` exactly when the wire
result exposes `is_error=true`, or exposes no `is_error` and
`isError=true` (`is_error` takes precedence when both spellings are
present); a result exposing neither spelling yields `false`. -/
theorem call_tool_error_flag_normalization
    (st : ClientState) (t1 t2 t3 : Nat) (name : String)
    (arguments : Option (List (String × Json))) (r : WireToolResult)
    (hc : st.client = some ()) (hcon : st.connected = true) :
    ∃ tcr : ToolCallResult,
      (MCPTestClient.call_tool st t1 t2 t3 name arguments (.ok r)).1
          = .ok tcr
      ∧ (tcr.is_error = true ↔
          (r.is_error = some true
           ∨ (r.is_error = none ∧ r.isError = some true))) := by
  have hnr : MCPTestClient.notReady st = false := by
    simp [MCPTestClient.notReady, hc, hcon]
  refine ⟨{ tool_name := name, arguments := arguments.getD [],
            content := r.content.getD [], is_error := r.errorFlag,
            raw_result := some r }, ?_, ?_⟩
  · simp [MCPTestClient.call_tool, hnr, MCPLogger.log_request]
  · show r.errorFlag = true ↔ _
    cases hie : r.is_error with
    | some b => cases b <;> simp [WireToolResult.errorFlag, hie]
    | none =>
      cases hiE : r.isError with
      | some b => cases b <;> simp [WireToolResult.errorFlag, hie, hiE]
      | none => simp [WireToolResult.errorFlag, hie, hiE]

/-- Closed witness for the amended claim C4 at a concrete wire result
exposing only `is_error=true`. -/
theorem call_tool_error_flag_normalization_witness :
    connectedState.client = some ()
    ∧ connectedState.connected = true
    ∧ ∃ tcr : ToolCallResult,
        (MCPTestClient.call_tool connectedState 1 2 3 "add" none
            (.ok { content := none, is_error := some true,
                   isError := none, dump := [] })).1
          = .ok tcr
        ∧ (tcr.is_error = true ↔
            (({ content := none, is_error := some true, isError := none,
                dump := [] } : WireToolResult).is_error = some true
             ∨ (({ content := none, is_error := some true, isError := none,
                   dump := [] } : WireToolResult).is_error = none
                ∧ ({ content := none, is_error := some true,
                     isError := none,
                     dump := [] } : WireToolResult).isError
                    = some true))) := by
  exact ⟨rfl, rfl,
    call_tool_error_flag_normalization connectedState 1 2 3 "add" none
      { content := none, is_error := some true, isError := none,
        dump := [] } rfl rfl⟩

/-- Counterexample to claim C5 as stated: `log_response` derives the
duration from `datetime.now()`, a wall-clock source, not a monotonic one.
With a request handle stamped at time 5 and the wall clock reading 0 at
the paired `log_response` (a backwards step), the stored `duration_ms` is
`-5`, a negative number — the claimed unconditional non-negativity
fails. -/
theorem log_response_negative_duration_counterexample :
    ((emptyLogger.log_response 0 7 "ping" (pyDict [])
        (some (emptyLogger.log_request 5 "ping" none).1) none).1).duration_ms
      = some (-5)
    ∧ (-5 : Int) < 0 := by
  exact ⟨rfl, by norm_num⟩

/-- Claim C5 as amended: a `log_response` given the entry handle of a
prior `log_request` stores `duration_ms = now - handle.timestamp` in
milliseconds, which is non-negative whenever the wall clock has not
stepped backwards between the two readings (the implementation reads
`datetime.now()`, not a monotonic clock); a `log_response` given no
request handle stores `duration_ms = null`. -/
theorem log_response_duration_pairing
    (l : MCPLogger) (tDur tTs : Nat) (m : String) (r : PyResult)
    (err : Option String) (req : MCPLogEntry) :
    (req.timestamp ≤ tDur →
      ((l.log_response tDur tTs m r (some req) err).1).duration_ms
          = some ((tDur : Int) - (req.timestamp : Int))
      ∧ (0 : Int) ≤ (tDur : Int) - (req.timestamp : Int))
    ∧ ((l.log_response tDur tTs m r none err).1).duration_ms = none := by
  refine ⟨fun h => ⟨rfl, by omega⟩, rfl⟩

/-- Closed witness for the amended claim C5: a paired response two
milliseconds after its request, and an unpaired response. -/
theorem log_response_duration_pairing_witness :
    ((emptyLogger.log_request 3 "ping" none).1).timestamp ≤ 5
    ∧ ((emptyLogger.log_response 5 6 "ping" (pyDict [])
        (some (emptyLogger.log_request 3 "ping" none).1) none).1).duration_ms
      = some ((5 : Int)
          - (((emptyLogger.log_request 3 "ping" none).1).timestamp : Int))
    ∧ ((emptyLogger.log_response 5 6 "ping" (pyDict [])
        none none).1).duration_ms = none := by
  have h := log_response_duration_pairing emptyLogger 5 6 "ping"
    (pyDict []) none (emptyLogger.log_request 3 "ping" none).1
  exact ⟨by decide, (h.1 (by decide)).1, h.2⟩

/-- The two sequential filter passes of `get_entries` coincide with the
one-pass AND-combined filter, whenever the given method is not the empty
string (for which `if method:` disables the filter). -/
theorem get_entries_none_eq_filtered (l : MCPLogger)
    (dir : Option MessageDirection) (m : Option String)
    (hm : m ≠ some "") :
    l.get_entries dir m none = filteredEntries l dir m := by
  unfold MCPLogger.get_entries filteredEntries
  cases dir <;> cases m <;>
    simp_all [List.filter_filter, Bool.and_comm]

/-- The slice `xs[-N:]` (for positive `N`) is the reversed `N`-element
front of the reversed list: the last `N` elements in original order. -/
theorem pyTailSlice_neg_eq_last (xs : List α) (N : Nat) (h : 0 < N) :
    pyTailSlice xs (-(N : Int)) = (xs.reverse.take N).reverse := by
  unfold pyTailSlice
  rw [if_neg (by omega)]
  have h2 : (- -(N : Int)).toNat = N := by omega
  rw [h2, ← List.rtake, List.rtake_eq_reverse_take_reverse]

/-- Lemma: `get_entries` with a limit is `get_entries` without one, sliced. -/
theorem get_entries_limit_split (l : MCPLogger)
    (dir : Option MessageDirection) (m : Option String) (n : Int) :
    l.get_entries dir m (some n)
      = if n = 0 then l.get_entries dir m none
        else pyTailSlice (l.get_entries dir m none) (-n) := by
  unfold MCPLogger.get_entries
  rfl

/-- Lemma: `get_entries` with a positive limit `N` and a non-empty method filter
returns the last `N` AND-filtered entries in original order. -/
theorem get_entries_pos_limit (l : MCPLogger)
    (dir : Option MessageDirection) (m : Option String) (N : Nat)
    (hm : m ≠ some "") (hN : 0 < N) :
    l.get_entries dir m (some (N : Int))
      = ((filteredEntries l dir m).reverse.take N).reverse := by
  rw [get_entries_limit_split, if_neg (by omega),
      get_entries_none_eq_filtered l dir m hm,
      pyTailSlice_neg_eq_last _ _ hN]

/-- Counterexample to claim C6 as stated: with the empty string given as
the method filter, `get_entries` keeps every entry instead of exactly the
entries whose method equals the given method — Python's `if method:`
treats the empty string as no filter at all. -/
theorem get_entries_empty_method_counterexample :
    MCPLogger.get_entries sampleLogger none (some "") none
        = sampleLogger.entries
    ∧ filteredEntries sampleLogger none (some "") = []
    ∧ sampleLogger.entries ≠ []
    ∧ MCPLogger.get_entries sampleLogger none (some "") none
        ≠ filteredEntries sampleLogger none (some "") := by
  refine ⟨rfl, rfl, ?_, ?_⟩ <;>
    simp [sampleLogger, emptyLogger, MCPLogger.log_request,
          MCPLogger.get_entries, filteredEntries]

/-- Claim C6 as amended: `getEntries` keeps exactly the entries whose
direction equals the given direction and whose method equals the given
method, each filter optional and AND-combined — except that an empty
method string disables the method filter — and then, for every positive
limit `N`, returns the last `N` matching entries preserving original
insertion order, all matching entries when `N` exceeds the matching
count. -/
theorem get_entries_filter_and_limit :
    (∀ (l : MCPLogger) (dir : Option MessageDirection) (lim : Option Int),
        l.get_entries dir (some "") lim = l.get_entries dir none lim)
    ∧ (∀ (l : MCPLogger) (dir : Option MessageDirection)
        (m : Option String), m ≠ some "" →
        l.get_entries dir m none = filteredEntries l dir m)
    ∧ (∀ (l : MCPLogger) (dir : Option MessageDirection)
        (m : Option String) (N : Nat), m ≠ some "" → 0 < N →
        l.get_entries dir m (some (N : Int))
          = ((filteredEntries l dir m).reverse.take N).reverse)
    ∧ (∀ (l : MCPLogger) (dir : Option MessageDirection)
        (m : Option String) (N : Nat), m ≠ some "" → 0 < N →
        (filteredEntries l dir m).length ≤ N →
        l.get_entries dir m (some (N : Int))
          = filteredEntries l dir m) := by
  refine ⟨?_, ?_, ?_, ?_⟩
  · intro l dir lim
    simp [MCPLogger.get_entries]
  · intro l dir m hm
    exact get_entries_none_eq_filtered l dir m hm
  · intro l dir m N hm hN
    exact get_entries_pos_limit l dir m N hm hN
  · intro l dir m N hm hN hlen
    rw [get_entries_pos_limit l dir m N hm hN,
        List.take_of_length_le (by simpa using hlen),
        List.reverse_reverse]

/-- Closed witness for the amended claim C6 at a concrete one-entry log
with a non-empty method filter and limit 1. -/
theorem get_entries_filter_and_limit_witness :
    (some "tools/list" : Option String) ≠ some ""
    ∧ 0 < 1
    ∧ MCPLogger.get_entries sampleLogger none (some "tools/list")
        (some ((1 : Nat) : Int))
      = ((filteredEntries sampleLogger none
            (some "tools/list")).reverse.take 1).reverse := by
  refine ⟨by simp, by norm_num, ?_⟩
  exact get_entries_filter_and_limit.2.2.1 sampleLogger none
    (some "tools/list") 1 (by simp) (by norm_num)

/-- Decoding one exported element recovers the entry's method and
direction. -/
theorem decodeEntry_to_dict (e : MCPLogEntry) :
    decodeEntry (Json.obj e.to_dict)
      = some { method := e.method, direction := e.direction } := by
  cases e with
  | mk ts dir m data dur err => cases dir <;> rfl

/-- Counterexample to claim C7 as stated: the exported element of a
concrete one-entry log carries no `durationMs` field — the duration
field's JSON key is spelled `duration_ms`. -/
theorem export_json_duration_key_counterexample :
    Json.objKeys ((Json.arrElems sampleLogger.export_json).headD Json.null)
      = ["timestamp", "direction", "method", "data", "duration_ms",
         "error"]
    ∧ (Json.objKeys
        ((Json.arrElems sampleLogger.export_json).headD
          Json.null)).contains "durationMs" = false
    ∧ (Json.objKeys
        ((Json.arrElems sampleLogger.export_json).headD
          Json.null)).contains "duration_ms" = true := by
  exact ⟨rfl, rfl, rfl⟩

/-- Claim C7 as amended: `exportJson` serializes the full entry sequence
in insertion order as a JSON array whose every element carries exactly the
fields `timestamp` (the ISO rendering), `direction`, `method`, `data`,
`duration_ms` and `error` — the duration key is spelled `duration_ms`,
not `durationMs` — and parsing the output back yields the same number of
entries with matching method and direction for each entry, in the same
order. -/
theorem export_json_round_trip :
    ∀ l : MCPLogger,
      (Json.arrElems l.export_json).map Json.objKeys
        = l.entries.map (fun _ =>
            ["timestamp", "direction", "method", "data", "duration_ms",
             "error"])
      ∧ decodeLog l.export_json
        = some (l.entries.map (fun e =>
            { method := e.method, direction := e.direction })) := by
  intro l
  constructor
  · simp only [MCPLogger.export_json, Json.arrElems, List.map_map]
    rfl
  · simp only [MCPLogger.export_json, decodeLog]
    induction l.entries with
    | nil => rfl
    | cons e es ih =>
      simp [decodeAll, decodeEntry_to_dict, ih]

/-- Counterexample to claim C9 as stated: `log_response` given the plain
value `42` — no structured dump, no instance attribute dictionary, not a
mapping — stores the payload `result: 42` with the value kept raw, not
the claimed string coercion `result: "42"`. -/
theorem log_response_raw_wrap_counterexample :
    ((emptyLogger.log_response 0 0 "tools/call" intResult none
        none).1).data = [("result", Json.num 42)]
    ∧ intResult.strRepr = "42"
    ∧ [("result", Json.num 42)] ≠ [("result", Json.str "42")] := by
  refine ⟨rfl, rfl, ?_⟩
  simp

/-- Claim C9 as amended: the stored data payload of a `log_response`
entry is the result's structured dump when the result exposes one; else,
for a result with an instance attribute dictionary, the one-key mapping
`result: str(result)` (string-coerced); else the result itself when it is
a plain mapping; and otherwise the one-key mapping `result: result` with
the value kept raw, not string-coerced. -/
theorem log_response_payload_normalization
    (l : MCPLogger) (tDur tTs : Nat) (m : String) (r : PyResult)
    (req : Option MCPLogEntry) (err : Option String) :
    (∀ d, r.model_dump = some d →
      ((l.log_response tDur tTs m r req err).1).data = d)
    ∧ (r.model_dump = none → r.hasDict = true →
      ((l.log_response tDur tTs m r req err).1).data
        = [("result", Json.str r.strRepr)])
    ∧ (∀ d, r.model_dump = none → r.hasDict = false → r.asDict = some d →
      ((l.log_response tDur tTs m r req err).1).data = d)
    ∧ (r.model_dump = none → r.hasDict = false → r.asDict = none →
      ((l.log_response tDur tTs m r req err).1).data
        = [("result", r.rawJson)]) := by
  refine ⟨?_, ?_, ?_, ?_⟩ <;> intros <;>
    simp_all [MCPLogger.log_response, normalize_result]

/-- Closed witness for the amended claim C9: a plain-mapping payload is
stored as-is. -/
theorem log_response_payload_normalization_witness :
    (pyDict [("a", Json.null)]).model_dump = none
    ∧ ((emptyLogger.log_response 0 0 "m" (pyDict [("a", Json.null)])
        none none).1).data = [("a", Json.null)] := by
  refine ⟨rfl, ?_⟩
  exact (log_response_payload_normalization emptyLogger 0 0 "m"
    (pyDict [("a", Json.null)]) none none).2.2.1 [("a", Json.null)]
    rfl rfl rfl

end MambaMcp
